import Mathlib

/-!
Shallow embedding of the storage-rent schedule calculator
(src/src/StorageRent/StorageRent.ts) together with proofs about it.

Modelling conventions:
* JavaScript numbers are modelled as exact rationals; all amounts in the
  source are produced by additions, multiplications, divisions by 30 or 100
  and a round-to-nearest step, so the rational model is the intended
  arithmetic of the program.
* A JavaScript Date produced by the source is modelled by its observable
  components: getFullYear, getMonth (0-based) and getDate.  The Date
  constructor normalises a month argument of 12 into January of the next
  year, and maps a year argument in 0..99 to 1900+year; both behaviours are
  reproduced in mkDate.
* Reading a property of an out-of-bounds array element throws a TypeError in
  JavaScript; the schedule builder is therefore modelled as returning an
  Option, with none standing for the thrown exception.  The loop recursion
  is bounded by explicit fuel chosen large enough (rentFuel); a lemma below
  shows the fuel never runs out on the executions the theorems talk about.
-/

/-- Observable components of a JavaScript Date: getFullYear, getMonth
(0-based, kept below 12 by construction) and getDate. -/
structure JSDate where
  year : Int
  month : Nat
  day : Nat
deriving DecidableEq

/-- The Date constructor maps a year argument between 0 and 99 to
1900 + year. -/
def yearShift (y : Int) : Int := if 0 ≤ y ∧ y ≤ 99 then y + 1900 else y

/-- Model of the JavaScript Date constructor new Date(y, m, d) for a day
argument that is in range for its month: the two-digit-year shift is applied
to y, then a month argument of 12 or more carries into later years. -/
def mkDate (y : Int) (m d : Nat) : JSDate :=
  { year := yearShift y + ((m / 12 : Nat) : Int), month := m % 12, day := d }

/-- The proleptic Gregorian leap-year rule used by the JavaScript Date
object. -/
def gregorianLeap (y : Int) : Bool := decide (y % 4 = 0 ∧ (y % 100 ≠ 0 ∨ y % 400 = 0))

/-- Source isLeapYear (line 110).  It omits the century rule; in the source
it is only consulted by a dead branch of correctRentDueDate whose value is
immediately overwritten, so it never influences any output. -/
def isLeapYear (y : Int) : Bool := decide (y % 4 = 0 ∧ y % 100 ≠ 0)

/-- Number of days of a (0-based) month in the proleptic Gregorian calendar,
as reported by the JavaScript Date object. -/
def daysInMonth (y : Int) : Nat → Nat
  | 1 => if gregorianLeap y then 29 else 28
  | 3 => 30
  | 5 => 30
  | 8 => 30
  | 10 => 30
  | _ => 31

/-- Source getDaysInMonth (line 236): new Date(year, month + 1, 0).getDate(),
i.e. day 0 of the following month, which is the last day of the requested
month after constructor normalisation. -/
def getDaysInMonth (y : Int) (m : Nat) : Nat :=
  let y2 : Int := yearShift y + (((m + 1) / 12 : Nat) : Int)
  let m2 : Nat := (m + 1) % 12
  if m2 = 0 then daysInMonth (y2 - 1) 11 else daysInMonth y2 (m2 - 1)

/-- Source correctRentDueDate (line 248).  The source contains an early
February branch assigning daysInMonth from isLeapYear, but that assignment
is unconditionally overwritten on the next line (dead code), so the
effective body is the clamp below. -/
def correctRentDueDate (y : Int) (m d : Nat) : JSDate :=
  let dim := getDaysInMonth y m
  if d > dim then mkDate y m dim else mkDate y m d

/-- Output record: vacancy flag, rent amount, rent due date. -/
structure MonthlyRentRecord where
  vacancy : Bool
  rentAmount : ℚ
  rentDueDate : JSDate
deriving DecidableEq

/-- JavaScript Math.round: round half towards positive infinity. -/
def jsRound (x : ℚ) : Int := ⌊x + 1/2⌋

/-- Source roundToTwoDecimalPlaces (line 121): Math.round(value * 100) / 100. -/
def roundToTwoDecimalPlaces (v : ℚ) : ℚ := ((jsRound (v * 100) : Int) : ℚ) / 100

/-- Source calculateNewMonthlyRent (line 96). -/
def calculateNewMonthlyRent (baseMonthlyRent rentChangeRate : ℚ) : ℚ :=
  baseMonthlyRent * (1 + rentChangeRate)

/-- Source isVacant (line 154). -/
def isVacant (rentChangeRate : ℚ) : Bool := decide (rentChangeRate < 0)

/-- Source calculateMonthDifference (line 133).  First parameter is the
window end, second the (moving) start date; only year and month components
are consulted. -/
def calculateMonthDifference (e s : JSDate) : Int :=
  if s.year > e.year then -1
  else if s.year = e.year then (e.month : Int) - (s.month : Int)
  else
    let cm := (e.year - s.year - 1) * 12
    if s.month > e.month then (s.month : Int) - (e.month : Int) + cm
    else (e.month : Int) - (s.month : Int) + cm

/-- Source calculateFirstMonthRent (line 167).  Number(dayOfMonthRentDue <
leaseStartDate.getDate()) is 1 or 0 and is used both as an addend and as a
truthiness test; it is modelled by the Boolean isAfter together with its
numeric image in the proration formula. -/
def calculateFirstMonthRent (due : Nat) (ls : JSDate) (base rate : ℚ) :
    List MonthlyRentRecord :=
  if due = ls.day then
    [{ vacancy := isVacant rate, rentAmount := base,
       rentDueDate := correctRentDueDate ls.year ls.month due }]
  else
    let isAfter : Bool := decide (due < ls.day)
    let calcRent : ℚ := roundToTwoDecimalPlaces
      (base * ((if isAfter then (1 : ℚ) else 0) - (((due : ℚ) - (ls.day : ℚ)) / 30)) *
        (if isAfter then 1 else -1))
    if isAfter then
      [{ vacancy := isVacant rate, rentAmount := calcRent,
         rentDueDate := correctRentDueDate ls.year ls.month due }]
    else
      [{ vacancy := isVacant rate, rentAmount := calcRent, rentDueDate := ls },
       { vacancy := isVacant rate, rentAmount := base,
         rentDueDate := correctRentDueDate ls.year ls.month due }]

/-- Input contract (source line 9). -/
structure Contract where
  baseMonthlyRent : ℚ
  leaseStartDate : JSDate
  windowStartDate : JSDate
  windowEndDate : JSDate
  dayOfMonthRentDue : Nat
  rentRateChangeFrequency : Int
  rentChangeRate : ℚ

/-- The for-loop of calculateMonthlyRent (source lines 51-83).  The counter
month starts at the seeded last record's due month and the guard re-reads
the current last record each iteration, exactly as in the source.  The
lookback monthlyRentRecords[month].rentAmount throws in JavaScript when the
index is out of bounds; that is the none branch of the inner match.  In
JavaScript month % 0 is NaN, which never equals 0, hence the explicit
frequency-nonzero test. -/
def rentLoop (c : Contract) :
    Nat → List MonthlyRentRecord → Nat → Option (List MonthlyRentRecord)
  | 0, records, month =>
    (records.getLast?).bind fun last =>
      if (month : Int) ≤ calculateMonthDifference c.windowEndDate last.rentDueDate then
        none
      else some records
  | fuel + 1, records, month =>
    (records.getLast?).bind fun last =>
      if (month : Int) ≤ calculateMonthDifference c.windowEndDate last.rentDueDate then
        ((if c.rentRateChangeFrequency ≠ 0 ∧
              (month : Int) % c.rentRateChangeFrequency = 0 then
            some (roundToTwoDecimalPlaces
              (calculateNewMonthlyRent last.rentAmount c.rentChangeRate))
          else
            (records.get? month).map fun r => roundToTwoDecimalPlaces r.rentAmount).bind
          fun amt =>
            rentLoop c fuel
              (records ++ [{ vacancy := isVacant c.rentChangeRate, rentAmount := amt,
                             rentDueDate := correctRentDueDate c.leaseStartDate.year
                               (last.rentDueDate.month + 1) c.dayOfMonthRentDue }])
              (month + 1))
      else some records

/-- Fuel for rentLoop: strictly more iterations than the loop can make,
since every reachable guard value is bounded by the month span from the
lease-start year to the window-end date (proved below). -/
def rentFuel (c : Contract) : Nat :=
  ((c.windowEndDate.year - yearShift c.leaseStartDate.year).toNat + 3) * 12 +
    c.windowEndDate.month

/-- Source calculateMonthlyRent (line 32): seed with the first-month
record(s), then run the loop. -/
def calculateMonthlyRent (c : Contract) : Option (List MonthlyRentRecord) :=
  let records := calculateFirstMonthRent c.dayOfMonthRentDue c.leaseStartDate
    c.baseMonthlyRent c.rentChangeRate
  match records.getLast? with
  | none => none
  | some last => rentLoop c (rentFuel c) records last.rentDueDate.month

/-- Lexicographic on-or-before order on the observable date components. -/
def dateLe (a b : JSDate) : Prop :=
  a.year < b.year ∨
    (a.year = b.year ∧ (a.month < b.month ∨ (a.month = b.month ∧ a.day ≤ b.day)))

instance (a b : JSDate) : Decidable (dateLe a b) := by
  unfold dateLe; infer_instance

/-- Reference definition following the specification wording for the
First-Month Calculator: one full-rent record when the due day equals the
lease-start day; one record with rent base * (1 - (dueDay - startDay)/30)
at the corrected due date when the due day is smaller; two records, a
prorated base * (dueDay - startDay)/30 record dated at the lease start and
a full-rent record at the corrected due date, when the due day is larger. -/
def calculateFirstMonthRentSpec (due : Nat) (ls : JSDate) (base rate : ℚ) :
    List MonthlyRentRecord :=
  if due = ls.day then
    [{ vacancy := isVacant rate, rentAmount := base,
       rentDueDate := correctRentDueDate ls.year ls.month due }]
  else if due < ls.day then
    [{ vacancy := isVacant rate,
       rentAmount := roundToTwoDecimalPlaces (base * (1 - ((due : ℚ) - (ls.day : ℚ)) / 30)),
       rentDueDate := correctRentDueDate ls.year ls.month due }]
  else
    [{ vacancy := isVacant rate,
       rentAmount := roundToTwoDecimalPlaces (base * (((due : ℚ) - (ls.day : ℚ)) / 30)),
       rentDueDate := ls },
     { vacancy := isVacant rate, rentAmount := base,
       rentDueDate := correctRentDueDate ls.year ls.month due }]

/-- The concrete scenario contract of the specification: base 1000, lease
start 2024-01-15, due day 15, window 2024-01-01 to 2024-03-31, frequency 12,
rate 0.05. -/
def scenarioContract : Contract :=
  { baseMonthlyRent := 1000, leaseStartDate := ⟨2024, 0, 15⟩,
    windowStartDate := ⟨2024, 0, 1⟩, windowEndDate := ⟨2024, 2, 31⟩,
    dayOfMonthRentDue := 15, rentRateChangeFrequency := 12, rentChangeRate := 1/20 }

/-- A frequency-12, rate-0.05 contract whose window is long enough for the
output to contain 13 records: lease start 2024-01-15, due day 15, window
ending 2026-01-31. -/
def thirteenRecordContract : Contract :=
  { baseMonthlyRent := 1000, leaseStartDate := ⟨2024, 0, 15⟩,
    windowStartDate := ⟨2024, 0, 1⟩, windowEndDate := ⟨2026, 0, 31⟩,
    dayOfMonthRentDue := 15, rentRateChangeFrequency := 12, rentChangeRate := 1/20 }

/-- A contract whose window covers the twelve months of 2024 starting at the
lease-start month: lease start 2024-01-15, due day 15, window ending
2024-12-31. -/
def fullYearContract : Contract :=
  { baseMonthlyRent := 1000, leaseStartDate := ⟨2024, 0, 15⟩,
    windowStartDate := ⟨2024, 0, 1⟩, windowEndDate := ⟨2024, 11, 31⟩,
    dayOfMonthRentDue := 15, rentRateChangeFrequency := 12, rentChangeRate := 1/20 }

/-- A contract whose window end 2024-01-10 precedes the first (and only)
first-month record's due date 2024-01-15. -/
def earlyWindowEndContract : Contract :=
  { baseMonthlyRent := 1000, leaseStartDate := ⟨2024, 0, 15⟩,
    windowStartDate := ⟨2023, 11, 1⟩, windowEndDate := ⟨2024, 0, 10⟩,
    dayOfMonthRentDue := 15, rentRateChangeFrequency := 12, rentChangeRate := 1/20 }

/-- A contract with a March lease start (first due month index 2), due day
equal to the start day, frequency 12: the first loop iteration takes the
non-escalation branch and reads index 2 of a one-element array. -/
def marchStartContract : Contract :=
  { baseMonthlyRent := 1000, leaseStartDate := ⟨2024, 2, 15⟩,
    windowStartDate := ⟨2024, 2, 1⟩, windowEndDate := ⟨2024, 11, 31⟩,
    dayOfMonthRentDue := 15, rentRateChangeFrequency := 12, rentChangeRate := 1/20 }

/-- A March-start contract whose window ends 2024-03-01, before the first
due date 2024-03-15: used to instantiate the amended window-exit property. -/
def marchEarlyEndContract : Contract :=
  { baseMonthlyRent := 1000, leaseStartDate := ⟨2024, 2, 15⟩,
    windowStartDate := ⟨2024, 2, 1⟩, windowEndDate := ⟨2024, 2, 1⟩,
    dayOfMonthRentDue := 15, rentRateChangeFrequency := 12, rentChangeRate := 1/20 }

/-- A copy of the specification scenario contract used to instantiate the
vacancy-flag theorem. -/
def vacancyWitnessContract : Contract :=
  { baseMonthlyRent := 1000, leaseStartDate := ⟨2024, 0, 15⟩,
    windowStartDate := ⟨2024, 0, 1⟩, windowEndDate := ⟨2024, 2, 31⟩,
    dayOfMonthRentDue := 15, rentRateChangeFrequency := 12, rentChangeRate := 1/20 }

/-- A January-start contract used to instantiate the amended in-bounds
lookback property. -/
def janStartContract : Contract :=
  { baseMonthlyRent := 1000, leaseStartDate := ⟨2024, 0, 15⟩,
    windowStartDate := ⟨2024, 0, 1⟩, windowEndDate := ⟨2025, 5, 30⟩,
    dayOfMonthRentDue := 15, rentRateChangeFrequency := 12, rentChangeRate := 1/20 }

/-- One loop iteration: when the guard holds and the rent amount computation
succeeds, the loop appends the new record and continues. -/
theorem rentLoop_step (c : Contract) (f : Nat) (records : List MonthlyRentRecord)
    (month : Nat) (last : MonthlyRentRecord) (amt : ℚ)
    (h1 : records.getLast? = some last)
    (h2 : (month : Int) ≤ calculateMonthDifference c.windowEndDate last.rentDueDate)
    (h3 : (if c.rentRateChangeFrequency ≠ 0 ∧
            (month : Int) % c.rentRateChangeFrequency = 0 then
          some (roundToTwoDecimalPlaces
            (calculateNewMonthlyRent last.rentAmount c.rentChangeRate))
        else
          (records.get? month).map fun r => roundToTwoDecimalPlaces r.rentAmount) =
        some amt) :
    rentLoop c (f + 1) records month =
      rentLoop c f
        (records ++ [{ vacancy := isVacant c.rentChangeRate, rentAmount := amt,
                       rentDueDate := correctRentDueDate c.leaseStartDate.year
                         (last.rentDueDate.month + 1) c.dayOfMonthRentDue }])
        (month + 1) := by
  conv_lhs => rw [rentLoop]
  rw [h1]
  simp only [Option.some_bind]
  rw [if_pos h2, h3]
  simp only [Option.some_bind]

/-- Loop exit: when the guard fails the loop returns the accumulated
records, whatever fuel remains. -/
theorem rentLoop_exit (c : Contract) (f : Nat) (records : List MonthlyRentRecord)
    (month : Nat) (last : MonthlyRentRecord)
    (h1 : records.getLast? = some last)
    (h2 : calculateMonthDifference c.windowEndDate last.rentDueDate < (month : Int)) :
    rentLoop c f records month = some records := by
  cases f with
  | zero =>
    conv_lhs => rw [rentLoop]
    rw [h1]
    simp only [Option.some_bind]
    rw [if_neg (not_le.mpr h2)]
  | succ f =>
    conv_lhs => rw [rentLoop]
    rw [h1]
    simp only [Option.some_bind]
    rw [if_neg (not_le.mpr h2)]

/-- C1: for the specification scenario (base 1000, lease start 2024-01-15,
due day 15, window 2024-01-01 to 2024-03-31, frequency 12, rate 0.05) the
claim expects amounts [1000, 1000, 1000].  The code instead returns
[1000, 1050, 1050]: the loop counter starts at the first due date's month
index 0 and 0 mod 12 = 0, so the escalation branch fires on the very first
iteration.  Record count, vacancy flags and due dates do match the claim. -/
theorem scenario_code_output :
    calculateMonthlyRent scenarioContract =
      some [⟨false, 1000, ⟨2024, 0, 15⟩⟩,
            ⟨false, 1050, ⟨2024, 1, 15⟩⟩,
            ⟨false, 1050, ⟨2024, 2, 15⟩⟩] := by with_unfolding_all rfl

/-- C2: with frequency 12 and rate 0.05 (lease start 2024-01-15, due day 15,
window end 2026-01-31) the code produces 13 records with amounts
1000, 1050, ..., 1050: the 13th generated record's amount is 1050, equal to
the 12th's, while round2(previous * 1.05) is 1102.50.  The escalation
instead fired at the second record (loop counter 0). -/
theorem thirteen_record_code_output :
    ((calculateMonthlyRent thirteenRecordContract).map fun l =>
        l.map fun r => r.rentAmount) =
      some (1000 :: List.replicate 12 1050) ∧
    roundToTwoDecimalPlaces (calculateNewMonthlyRent 1050 (1/20)) = 2205/2 := by
  refine ⟨?_, by with_unfolding_all rfl⟩
  have s0 : calculateMonthlyRent thirteenRecordContract =
      rentLoop thirteenRecordContract 60 [⟨false, 1000, ⟨2024, 0, 15⟩⟩] 0 := by
    with_unfolding_all rfl
  have s1 : rentLoop thirteenRecordContract 60 [⟨false, 1000, ⟨2024, 0, 15⟩⟩] 0 =
      rentLoop thirteenRecordContract 59 [⟨false, 1000, ⟨2024, 0, 15⟩⟩,
        ⟨false, 1050, ⟨2024, 1, 15⟩⟩] 1 :=
    (rentLoop_step thirteenRecordContract 59 [⟨false, 1000, ⟨2024, 0, 15⟩⟩]
      0 ⟨false, 1000, ⟨2024, 0, 15⟩⟩ 1050 rfl (by decide)
      (by with_unfolding_all rfl)).trans (by with_unfolding_all rfl)
  have s2 : rentLoop thirteenRecordContract 59 [⟨false, 1000, ⟨2024, 0, 15⟩⟩,
        ⟨false, 1050, ⟨2024, 1, 15⟩⟩] 1 =
      rentLoop thirteenRecordContract 58 [⟨false, 1000, ⟨2024, 0, 15⟩⟩,
        ⟨false, 1050, ⟨2024, 1, 15⟩⟩,
        ⟨false, 1050, ⟨2024, 2, 15⟩⟩] 2 :=
    (rentLoop_step thirteenRecordContract 58 [⟨false, 1000, ⟨2024, 0, 15⟩⟩,
        ⟨false, 1050, ⟨2024, 1, 15⟩⟩]
      1 ⟨false, 1050, ⟨2024, 1, 15⟩⟩ 1050 rfl (by decide)
      (by with_unfolding_all rfl)).trans (by with_unfolding_all rfl)
  have s3 : rentLoop thirteenRecordContract 58 [⟨false, 1000, ⟨2024, 0, 15⟩⟩,
        ⟨false, 1050, ⟨2024, 1, 15⟩⟩,
        ⟨false, 1050, ⟨2024, 2, 15⟩⟩] 2 =
      rentLoop thirteenRecordContract 57 [⟨false, 1000, ⟨2024, 0, 15⟩⟩,
        ⟨false, 1050, ⟨2024, 1, 15⟩⟩,
        ⟨false, 1050, ⟨2024, 2, 15⟩⟩,
        ⟨false, 1050, ⟨2024, 3, 15⟩⟩] 3 :=
    (rentLoop_step thirteenRecordContract 57 [⟨false, 1000, ⟨2024, 0, 15⟩⟩,
        ⟨false, 1050, ⟨2024, 1, 15⟩⟩,
        ⟨false, 1050, ⟨2024, 2, 15⟩⟩]
      2 ⟨false, 1050, ⟨2024, 2, 15⟩⟩ 1050 rfl (by decide)
      (by with_unfolding_all rfl)).trans (by with_unfolding_all rfl)
  have s4 : rentLoop thirteenRecordContract 57 [⟨false, 1000, ⟨2024, 0, 15⟩⟩,
        ⟨false, 1050, ⟨2024, 1, 15⟩⟩,
        ⟨false, 1050, ⟨2024, 2, 15⟩⟩,
        ⟨false, 1050, ⟨2024, 3, 15⟩⟩] 3 =
      rentLoop thirteenRecordContract 56 [⟨false, 1000, ⟨2024, 0, 15⟩⟩,
        ⟨false, 1050, ⟨2024, 1, 15⟩⟩,
        ⟨false, 1050, ⟨2024, 2, 15⟩⟩,
        ⟨false, 1050, ⟨2024, 3, 15⟩⟩,
        ⟨false, 1050, ⟨2024, 4, 15⟩⟩] 4 :=
    (rentLoop_step thirteenRecordContract 56 [⟨false, 1000, ⟨2024, 0, 15⟩⟩,
        ⟨false, 1050, ⟨2024, 1, 15⟩⟩,
        ⟨false, 1050, ⟨2024, 2, 15⟩⟩,
        ⟨false, 1050, ⟨2024, 3, 15⟩⟩]
      3 ⟨false, 1050, ⟨2024, 3, 15⟩⟩ 1050 rfl (by decide)
      (by with_unfolding_all rfl)).trans (by with_unfolding_all rfl)
  have s5 : rentLoop thirteenRecordContract 56 [⟨false, 1000, ⟨2024, 0, 15⟩⟩,
        ⟨false, 1050, ⟨2024, 1, 15⟩⟩,
        ⟨false, 1050, ⟨2024, 2, 15⟩⟩,
        ⟨false, 1050, ⟨2024, 3, 15⟩⟩,
        ⟨false, 1050, ⟨2024, 4, 15⟩⟩] 4 =
      rentLoop thirteenRecordContract 55 [⟨false, 1000, ⟨2024, 0, 15⟩⟩,
        ⟨false, 1050, ⟨2024, 1, 15⟩⟩,
        ⟨false, 1050, ⟨2024, 2, 15⟩⟩,
        ⟨false, 1050, ⟨2024, 3, 15⟩⟩,
        ⟨false, 1050, ⟨2024, 4, 15⟩⟩,
        ⟨false, 1050, ⟨2024, 5, 15⟩⟩] 5 :=
    (rentLoop_step thirteenRecordContract 55 [⟨false, 1000, ⟨2024, 0, 15⟩⟩,
        ⟨false, 1050, ⟨2024, 1, 15⟩⟩,
        ⟨false, 1050, ⟨2024, 2, 15⟩⟩,
        ⟨false, 1050, ⟨2024, 3, 15⟩⟩,
        ⟨false, 1050, ⟨2024, 4, 15⟩⟩]
      4 ⟨false, 1050, ⟨2024, 4, 15⟩⟩ 1050 rfl (by decide)
      (by with_unfolding_all rfl)).trans (by with_unfolding_all rfl)
  have s6 : rentLoop thirteenRecordContract 55 [⟨false, 1000, ⟨2024, 0, 15⟩⟩,
        ⟨false, 1050, ⟨2024, 1, 15⟩⟩,
        ⟨false, 1050, ⟨2024, 2, 15⟩⟩,
        ⟨false, 1050, ⟨2024, 3, 15⟩⟩,
        ⟨false, 1050, ⟨2024, 4, 15⟩⟩,
        ⟨false, 1050, ⟨2024, 5, 15⟩⟩] 5 =
      rentLoop thirteenRecordContract 54 [⟨false, 1000, ⟨2024, 0, 15⟩⟩,
        ⟨false, 1050, ⟨2024, 1, 15⟩⟩,
        ⟨false, 1050, ⟨2024, 2, 15⟩⟩,
        ⟨false, 1050, ⟨2024, 3, 15⟩⟩,
        ⟨false, 1050, ⟨2024, 4, 15⟩⟩,
        ⟨false, 1050, ⟨2024, 5, 15⟩⟩,
        ⟨false, 1050, ⟨2024, 6, 15⟩⟩] 6 :=
    (rentLoop_step thirteenRecordContract 54 [⟨false, 1000, ⟨2024, 0, 15⟩⟩,
        ⟨false, 1050, ⟨2024, 1, 15⟩⟩,
        ⟨false, 1050, ⟨2024, 2, 15⟩⟩,
        ⟨false, 1050, ⟨2024, 3, 15⟩⟩,
        ⟨false, 1050, ⟨2024, 4, 15⟩⟩,
        ⟨false, 1050, ⟨2024, 5, 15⟩⟩]
      5 ⟨false, 1050, ⟨2024, 5, 15⟩⟩ 1050 rfl (by decide)
      (by with_unfolding_all rfl)).trans (by with_unfolding_all rfl)
  have s7 : rentLoop thirteenRecordContract 54 [⟨false, 1000, ⟨2024, 0, 15⟩⟩,
        ⟨false, 1050, ⟨2024, 1, 15⟩⟩,
        ⟨false, 1050, ⟨2024, 2, 15⟩⟩,
        ⟨false, 1050, ⟨2024, 3, 15⟩⟩,
        ⟨false, 1050, ⟨2024, 4, 15⟩⟩,
        ⟨false, 1050, ⟨2024, 5, 15⟩⟩,
        ⟨false, 1050, ⟨2024, 6, 15⟩⟩] 6 =
      rentLoop thirteenRecordContract 53 [⟨false, 1000, ⟨2024, 0, 15⟩⟩,
        ⟨false, 1050, ⟨2024, 1, 15⟩⟩,
        ⟨false, 1050, ⟨2024, 2, 15⟩⟩,
        ⟨false, 1050, ⟨2024, 3, 15⟩⟩,
        ⟨false, 1050, ⟨2024, 4, 15⟩⟩,
        ⟨false, 1050, ⟨2024, 5, 15⟩⟩,
        ⟨false, 1050, ⟨2024, 6, 15⟩⟩,
        ⟨false, 1050, ⟨2024, 7, 15⟩⟩] 7 :=
    (rentLoop_step thirteenRecordContract 53 [⟨false, 1000, ⟨2024, 0, 15⟩⟩,
        ⟨false, 1050, ⟨2024, 1, 15⟩⟩,
        ⟨false, 1050, ⟨2024, 2, 15⟩⟩,
        ⟨false, 1050, ⟨2024, 3, 15⟩⟩,
        ⟨false, 1050, ⟨2024, 4, 15⟩⟩,
        ⟨false, 1050, ⟨2024, 5, 15⟩⟩,
        ⟨false, 1050, ⟨2024, 6, 15⟩⟩]
      6 ⟨false, 1050, ⟨2024, 6, 15⟩⟩ 1050 rfl (by decide)
      (by with_unfolding_all rfl)).trans (by with_unfolding_all rfl)
  have s8 : rentLoop thirteenRecordContract 53 [⟨false, 1000, ⟨2024, 0, 15⟩⟩,
        ⟨false, 1050, ⟨2024, 1, 15⟩⟩,
        ⟨false, 1050, ⟨2024, 2, 15⟩⟩,
        ⟨false, 1050, ⟨2024, 3, 15⟩⟩,
        ⟨false, 1050, ⟨2024, 4, 15⟩⟩,
        ⟨false, 1050, ⟨2024, 5, 15⟩⟩,
        ⟨false, 1050, ⟨2024, 6, 15⟩⟩,
        ⟨false, 1050, ⟨2024, 7, 15⟩⟩] 7 =
      rentLoop thirteenRecordContract 52 [⟨false, 1000, ⟨2024, 0, 15⟩⟩,
        ⟨false, 1050, ⟨2024, 1, 15⟩⟩,
        ⟨false, 1050, ⟨2024, 2, 15⟩⟩,
        ⟨false, 1050, ⟨2024, 3, 15⟩⟩,
        ⟨false, 1050, ⟨2024, 4, 15⟩⟩,
        ⟨false, 1050, ⟨2024, 5, 15⟩⟩,
        ⟨false, 1050, ⟨2024, 6, 15⟩⟩,
        ⟨false, 1050, ⟨2024, 7, 15⟩⟩,
        ⟨false, 1050, ⟨2024, 8, 15⟩⟩] 8 :=
    (rentLoop_step thirteenRecordContract 52 [⟨false, 1000, ⟨2024, 0, 15⟩⟩,
        ⟨false, 1050, ⟨2024, 1, 15⟩⟩,
        ⟨false, 1050, ⟨2024, 2, 15⟩⟩,
        ⟨false, 1050, ⟨2024, 3, 15⟩⟩,
        ⟨false, 1050, ⟨2024, 4, 15⟩⟩,
        ⟨false, 1050, ⟨2024, 5, 15⟩⟩,
        ⟨false, 1050, ⟨2024, 6, 15⟩⟩,
        ⟨false, 1050, ⟨2024, 7, 15⟩⟩]
      7 ⟨false, 1050, ⟨2024, 7, 15⟩⟩ 1050 rfl (by decide)
      (by with_unfolding_all rfl)).trans (by with_unfolding_all rfl)
  have s9 : rentLoop thirteenRecordContract 52 [⟨false, 1000, ⟨2024, 0, 15⟩⟩,
        ⟨false, 1050, ⟨2024, 1, 15⟩⟩,
        ⟨false, 1050, ⟨2024, 2, 15⟩⟩,
        ⟨false, 1050, ⟨2024, 3, 15⟩⟩,
        ⟨false, 1050, ⟨2024, 4, 15⟩⟩,
        ⟨false, 1050, ⟨2024, 5, 15⟩⟩,
        ⟨false, 1050, ⟨2024, 6, 15⟩⟩,
        ⟨false, 1050, ⟨2024, 7, 15⟩⟩,
        ⟨false, 1050, ⟨2024, 8, 15⟩⟩] 8 =
      rentLoop thirteenRecordContract 51 [⟨false, 1000, ⟨2024, 0, 15⟩⟩,
        ⟨false, 1050, ⟨2024, 1, 15⟩⟩,
        ⟨false, 1050, ⟨2024, 2, 15⟩⟩,
        ⟨false, 1050, ⟨2024, 3, 15⟩⟩,
        ⟨false, 1050, ⟨2024, 4, 15⟩⟩,
        ⟨false, 1050, ⟨2024, 5, 15⟩⟩,
        ⟨false, 1050, ⟨2024, 6, 15⟩⟩,
        ⟨false, 1050, ⟨2024, 7, 15⟩⟩,
        ⟨false, 1050, ⟨2024, 8, 15⟩⟩,
        ⟨false, 1050, ⟨2024, 9, 15⟩⟩] 9 :=
    (rentLoop_step thirteenRecordContract 51 [⟨false, 1000, ⟨2024, 0, 15⟩⟩,
        ⟨false, 1050, ⟨2024, 1, 15⟩⟩,
        ⟨false, 1050, ⟨2024, 2, 15⟩⟩,
        ⟨false, 1050, ⟨2024, 3, 15⟩⟩,
        ⟨false, 1050, ⟨2024, 4, 15⟩⟩,
        ⟨false, 1050, ⟨2024, 5, 15⟩⟩,
        ⟨false, 1050, ⟨2024, 6, 15⟩⟩,
        ⟨false, 1050, ⟨2024, 7, 15⟩⟩,
        ⟨false, 1050, ⟨2024, 8, 15⟩⟩]
      8 ⟨false, 1050, ⟨2024, 8, 15⟩⟩ 1050 rfl (by decide)
      (by with_unfolding_all rfl)).trans (by with_unfolding_all rfl)
  have s10 : rentLoop thirteenRecordContract 51 [⟨false, 1000, ⟨2024, 0, 15⟩⟩,
        ⟨false, 1050, ⟨2024, 1, 15⟩⟩,
        ⟨false, 1050, ⟨2024, 2, 15⟩⟩,
        ⟨false, 1050, ⟨2024, 3, 15⟩⟩,
        ⟨false, 1050, ⟨2024, 4, 15⟩⟩,
        ⟨false, 1050, ⟨2024, 5, 15⟩⟩,
        ⟨false, 1050, ⟨2024, 6, 15⟩⟩,
        ⟨false, 1050, ⟨2024, 7, 15⟩⟩,
        ⟨false, 1050, ⟨2024, 8, 15⟩⟩,
        ⟨false, 1050, ⟨2024, 9, 15⟩⟩] 9 =
      rentLoop thirteenRecordContract 50 [⟨false, 1000, ⟨2024, 0, 15⟩⟩,
        ⟨false, 1050, ⟨2024, 1, 15⟩⟩,
        ⟨false, 1050, ⟨2024, 2, 15⟩⟩,
        ⟨false, 1050, ⟨2024, 3, 15⟩⟩,
        ⟨false, 1050, ⟨2024, 4, 15⟩⟩,
        ⟨false, 1050, ⟨2024, 5, 15⟩⟩,
        ⟨false, 1050, ⟨2024, 6, 15⟩⟩,
        ⟨false, 1050, ⟨2024, 7, 15⟩⟩,
        ⟨false, 1050, ⟨2024, 8, 15⟩⟩,
        ⟨false, 1050, ⟨2024, 9, 15⟩⟩,
        ⟨false, 1050, ⟨2024, 10, 15⟩⟩] 10 :=
    (rentLoop_step thirteenRecordContract 50 [⟨false, 1000, ⟨2024, 0, 15⟩⟩,
        ⟨false, 1050, ⟨2024, 1, 15⟩⟩,
        ⟨false, 1050, ⟨2024, 2, 15⟩⟩,
        ⟨false, 1050, ⟨2024, 3, 15⟩⟩,
        ⟨false, 1050, ⟨2024, 4, 15⟩⟩,
        ⟨false, 1050, ⟨2024, 5, 15⟩⟩,
        ⟨false, 1050, ⟨2024, 6, 15⟩⟩,
        ⟨false, 1050, ⟨2024, 7, 15⟩⟩,
        ⟨false, 1050, ⟨2024, 8, 15⟩⟩,
        ⟨false, 1050, ⟨2024, 9, 15⟩⟩]
      9 ⟨false, 1050, ⟨2024, 9, 15⟩⟩ 1050 rfl (by decide)
      (by with_unfolding_all rfl)).trans (by with_unfolding_all rfl)
  have s11 : rentLoop thirteenRecordContract 50 [⟨false, 1000, ⟨2024, 0, 15⟩⟩,
        ⟨false, 1050, ⟨2024, 1, 15⟩⟩,
        ⟨false, 1050, ⟨2024, 2, 15⟩⟩,
        ⟨false, 1050, ⟨2024, 3, 15⟩⟩,
        ⟨false, 1050, ⟨2024, 4, 15⟩⟩,
        ⟨false, 1050, ⟨2024, 5, 15⟩⟩,
        ⟨false, 1050, ⟨2024, 6, 15⟩⟩,
        ⟨false, 1050, ⟨2024, 7, 15⟩⟩,
        ⟨false, 1050, ⟨2024, 8, 15⟩⟩,
        ⟨false, 1050, ⟨2024, 9, 15⟩⟩,
        ⟨false, 1050, ⟨2024, 10, 15⟩⟩] 10 =
      rentLoop thirteenRecordContract 49 [⟨false, 1000, ⟨2024, 0, 15⟩⟩,
        ⟨false, 1050, ⟨2024, 1, 15⟩⟩,
        ⟨false, 1050, ⟨2024, 2, 15⟩⟩,
        ⟨false, 1050, ⟨2024, 3, 15⟩⟩,
        ⟨false, 1050, ⟨2024, 4, 15⟩⟩,
        ⟨false, 1050, ⟨2024, 5, 15⟩⟩,
        ⟨false, 1050, ⟨2024, 6, 15⟩⟩,
        ⟨false, 1050, ⟨2024, 7, 15⟩⟩,
        ⟨false, 1050, ⟨2024, 8, 15⟩⟩,
        ⟨false, 1050, ⟨2024, 9, 15⟩⟩,
        ⟨false, 1050, ⟨2024, 10, 15⟩⟩,
        ⟨false, 1050, ⟨2024, 11, 15⟩⟩] 11 :=
    (rentLoop_step thirteenRecordContract 49 [⟨false, 1000, ⟨2024, 0, 15⟩⟩,
        ⟨false, 1050, ⟨2024, 1, 15⟩⟩,
        ⟨false, 1050, ⟨2024, 2, 15⟩⟩,
        ⟨false, 1050, ⟨2024, 3, 15⟩⟩,
        ⟨false, 1050, ⟨2024, 4, 15⟩⟩,
        ⟨false, 1050, ⟨2024, 5, 15⟩⟩,
        ⟨false, 1050, ⟨2024, 6, 15⟩⟩,
        ⟨false, 1050, ⟨2024, 7, 15⟩⟩,
        ⟨false, 1050, ⟨2024, 8, 15⟩⟩,
        ⟨false, 1050, ⟨2024, 9, 15⟩⟩,
        ⟨false, 1050, ⟨2024, 10, 15⟩⟩]
      10 ⟨false, 1050, ⟨2024, 10, 15⟩⟩ 1050 rfl (by decide)
      (by with_unfolding_all rfl)).trans (by with_unfolding_all rfl)
  have s12 : rentLoop thirteenRecordContract 49 [⟨false, 1000, ⟨2024, 0, 15⟩⟩,
        ⟨false, 1050, ⟨2024, 1, 15⟩⟩,
        ⟨false, 1050, ⟨2024, 2, 15⟩⟩,
        ⟨false, 1050, ⟨2024, 3, 15⟩⟩,
        ⟨false, 1050, ⟨2024, 4, 15⟩⟩,
        ⟨false, 1050, ⟨2024, 5, 15⟩⟩,
        ⟨false, 1050, ⟨2024, 6, 15⟩⟩,
        ⟨false, 1050, ⟨2024, 7, 15⟩⟩,
        ⟨false, 1050, ⟨2024, 8, 15⟩⟩,
        ⟨false, 1050, ⟨2024, 9, 15⟩⟩,
        ⟨false, 1050, ⟨2024, 10, 15⟩⟩,
        ⟨false, 1050, ⟨2024, 11, 15⟩⟩] 11 =
      rentLoop thirteenRecordContract 48 [⟨false, 1000, ⟨2024, 0, 15⟩⟩,
        ⟨false, 1050, ⟨2024, 1, 15⟩⟩,
        ⟨false, 1050, ⟨2024, 2, 15⟩⟩,
        ⟨false, 1050, ⟨2024, 3, 15⟩⟩,
        ⟨false, 1050, ⟨2024, 4, 15⟩⟩,
        ⟨false, 1050, ⟨2024, 5, 15⟩⟩,
        ⟨false, 1050, ⟨2024, 6, 15⟩⟩,
        ⟨false, 1050, ⟨2024, 7, 15⟩⟩,
        ⟨false, 1050, ⟨2024, 8, 15⟩⟩,
        ⟨false, 1050, ⟨2024, 9, 15⟩⟩,
        ⟨false, 1050, ⟨2024, 10, 15⟩⟩,
        ⟨false, 1050, ⟨2024, 11, 15⟩⟩,
        ⟨false, 1050, ⟨2025, 0, 15⟩⟩] 12 :=
    (rentLoop_step thirteenRecordContract 48 [⟨false, 1000, ⟨2024, 0, 15⟩⟩,
        ⟨false, 1050, ⟨2024, 1, 15⟩⟩,
        ⟨false, 1050, ⟨2024, 2, 15⟩⟩,
        ⟨false, 1050, ⟨2024, 3, 15⟩⟩,
        ⟨false, 1050, ⟨2024, 4, 15⟩⟩,
        ⟨false, 1050, ⟨2024, 5, 15⟩⟩,
        ⟨false, 1050, ⟨2024, 6, 15⟩⟩,
        ⟨false, 1050, ⟨2024, 7, 15⟩⟩,
        ⟨false, 1050, ⟨2024, 8, 15⟩⟩,
        ⟨false, 1050, ⟨2024, 9, 15⟩⟩,
        ⟨false, 1050, ⟨2024, 10, 15⟩⟩,
        ⟨false, 1050, ⟨2024, 11, 15⟩⟩]
      11 ⟨false, 1050, ⟨2024, 11, 15⟩⟩ 1050 rfl (by decide)
      (by with_unfolding_all rfl)).trans (by with_unfolding_all rfl)
  have s13 : rentLoop thirteenRecordContract 48 [⟨false, 1000, ⟨2024, 0, 15⟩⟩,
        ⟨false, 1050, ⟨2024, 1, 15⟩⟩,
        ⟨false, 1050, ⟨2024, 2, 15⟩⟩,
        ⟨false, 1050, ⟨2024, 3, 15⟩⟩,
        ⟨false, 1050, ⟨2024, 4, 15⟩⟩,
        ⟨false, 1050, ⟨2024, 5, 15⟩⟩,
        ⟨false, 1050, ⟨2024, 6, 15⟩⟩,
        ⟨false, 1050, ⟨2024, 7, 15⟩⟩,
        ⟨false, 1050, ⟨2024, 8, 15⟩⟩,
        ⟨false, 1050, ⟨2024, 9, 15⟩⟩,
        ⟨false, 1050, ⟨2024, 10, 15⟩⟩,
        ⟨false, 1050, ⟨2024, 11, 15⟩⟩,
        ⟨false, 1050, ⟨2025, 0, 15⟩⟩] 12 =
      some [⟨false, 1000, ⟨2024, 0, 15⟩⟩,
        ⟨false, 1050, ⟨2024, 1, 15⟩⟩,
        ⟨false, 1050, ⟨2024, 2, 15⟩⟩,
        ⟨false, 1050, ⟨2024, 3, 15⟩⟩,
        ⟨false, 1050, ⟨2024, 4, 15⟩⟩,
        ⟨false, 1050, ⟨2024, 5, 15⟩⟩,
        ⟨false, 1050, ⟨2024, 6, 15⟩⟩,
        ⟨false, 1050, ⟨2024, 7, 15⟩⟩,
        ⟨false, 1050, ⟨2024, 8, 15⟩⟩,
        ⟨false, 1050, ⟨2024, 9, 15⟩⟩,
        ⟨false, 1050, ⟨2024, 10, 15⟩⟩,
        ⟨false, 1050, ⟨2024, 11, 15⟩⟩,
        ⟨false, 1050, ⟨2025, 0, 15⟩⟩] :=
    rentLoop_exit thirteenRecordContract 48 [⟨false, 1000, ⟨2024, 0, 15⟩⟩,
        ⟨false, 1050, ⟨2024, 1, 15⟩⟩,
        ⟨false, 1050, ⟨2024, 2, 15⟩⟩,
        ⟨false, 1050, ⟨2024, 3, 15⟩⟩,
        ⟨false, 1050, ⟨2024, 4, 15⟩⟩,
        ⟨false, 1050, ⟨2024, 5, 15⟩⟩,
        ⟨false, 1050, ⟨2024, 6, 15⟩⟩,
        ⟨false, 1050, ⟨2024, 7, 15⟩⟩,
        ⟨false, 1050, ⟨2024, 8, 15⟩⟩,
        ⟨false, 1050, ⟨2024, 9, 15⟩⟩,
        ⟨false, 1050, ⟨2024, 10, 15⟩⟩,
        ⟨false, 1050, ⟨2024, 11, 15⟩⟩,
        ⟨false, 1050, ⟨2025, 0, 15⟩⟩]
      12 ⟨false, 1050, ⟨2025, 0, 15⟩⟩ rfl (by decide)
  rw [s0, s1, s2, s3, s4, s5, s6, s7, s8, s9, s10, s11, s12, s13]
  with_unfolding_all rfl

/-- C3: for the full-2024 window (lease start 2024-01-15, due day 15, window
end 2024-12-31) the code returns only 7 records, with due dates 2024-01-15
through 2024-07-15, instead of one record per month through December: the
loop guard compares the growing counter against a month difference that
shrinks as the last due date advances. -/
theorem full_year_code_output :
    ((calculateMonthlyRent fullYearContract).map fun l =>
        l.map fun r => r.rentDueDate) =
      some [⟨2024, 0, 15⟩, ⟨2024, 1, 15⟩, ⟨2024, 2, 15⟩, ⟨2024, 3, 15⟩,
            ⟨2024, 4, 15⟩, ⟨2024, 5, 15⟩, ⟨2024, 6, 15⟩] := by
  with_unfolding_all rfl

/-- C4 counterexample: the window end 2024-01-10 lies strictly before the
single first-month record's due date 2024-01-15, yet the code appends an
extra record dated 2024-02-15: with a January first due date the loop
counter starts at 0 and the guard 0 <= 0 holds. -/
theorem early_window_end_counterexample :
    dateLe earlyWindowEndContract.windowEndDate ⟨2024, 0, 15⟩ ∧
    calculateFirstMonthRent earlyWindowEndContract.dayOfMonthRentDue
        earlyWindowEndContract.leaseStartDate earlyWindowEndContract.baseMonthlyRent
        earlyWindowEndContract.rentChangeRate =
      [⟨false, 1000, ⟨2024, 0, 15⟩⟩] ∧
    calculateMonthlyRent earlyWindowEndContract =
      some [⟨false, 1000, ⟨2024, 0, 15⟩⟩, ⟨false, 1050, ⟨2024, 1, 15⟩⟩] :=
  ⟨by decide, by with_unfolding_all rfl, by with_unfolding_all rfl⟩

/-- C5 counterexample: for the pair (2026-05-01, 2024-03-15) the first
date's year exceeds the second's, yet calculateMonthDifference returns 14,
not -1. -/
theorem month_difference_counterexample :
    (JSDate.mk 2024 2 15).year < (JSDate.mk 2026 4 1).year ∧
    calculateMonthDifference ⟨2026, 4, 1⟩ ⟨2024, 2, 15⟩ = 14 ∧
    calculateMonthDifference ⟨2026, 4, 1⟩ ⟨2024, 2, 15⟩ ≠ -1 := by decide

/-- C5 amended: calculateMonthDifference returns the sentinel -1 exactly in
the opposite situation: whenever the second (start) date's year exceeds the
first (end) date's year. -/
theorem month_difference_sentinel (e s : JSDate) (h : e.year < s.year) :
    calculateMonthDifference e s = -1 := by
  unfold calculateMonthDifference
  rw [if_pos h]

/-- Instantiation of month_difference_sentinel at end 2024-01-01 and start
2026-01-01. -/
theorem month_difference_sentinel_witness :
    calculateMonthDifference ⟨2024, 0, 1⟩ ⟨2026, 0, 1⟩ = -1 :=
  month_difference_sentinel ⟨2024, 0, 1⟩ ⟨2026, 0, 1⟩ (by decide)

/-- C10: rounding to two decimal places is idempotent on every rational. -/
theorem roundToTwoDecimalPlaces_idempotent (x : ℚ) :
    roundToTwoDecimalPlaces (roundToTwoDecimalPlaces x) = roundToTwoDecimalPlaces x := by
  unfold roundToTwoDecimalPlaces jsRound
  have h1 : ((⌊x * 100 + 1/2⌋ : ℚ) / 100) * 100 = ((⌊x * 100 + 1/2⌋ : Int) : ℚ) :=
    div_mul_cancel₀ _ (by norm_num)
  rw [h1, add_comm, Int.floor_add_int]
  norm_num

/-- C6: calculateFirstMonthRent agrees with the reference definition taken
from the specification wording in all three cases (due day equal to, less
than, or greater than the lease-start day). -/
theorem calculateFirstMonthRent_eq_spec (due : Nat) (ls : JSDate) (base rate : ℚ) :
    calculateFirstMonthRent due ls base rate =
      calculateFirstMonthRentSpec due ls base rate := by
  unfold calculateFirstMonthRent calculateFirstMonthRentSpec
  by_cases h1 : due = ls.day
  · simp [h1]
  · by_cases h2 : due < ls.day
    · simp [h1, h2, mul_one]
    · simp only [if_neg h1, h2, decide_False, if_neg, if_false, Bool.false_eq_true,
        ite_false]
      have h3 : base * ((0 : ℚ) - ((due : ℚ) - (ls.day : ℚ)) / 30) * (-1) =
          base * (((due : ℚ) - (ls.day : ℚ)) / 30) := by ring
      rw [h3]

/-- For months 0 through 11 the day-0-of-next-month computation agrees with
the plain days-in-month table for the shifted year. -/
theorem getDaysInMonth_eq (y : Int) (m : Nat) (hm : m < 12) :
    getDaysInMonth y m = daysInMonth (yearShift y) m := by
  unfold getDaysInMonth
  interval_cases m <;> simp [daysInMonth]

/-- For months 0 through 11 the constructor performs no month carry. -/
theorem mkDate_eq (y : Int) (m d : Nat) (hm : m < 12) :
    mkDate y m d = ⟨yearShift y, m, d⟩ := by
  unfold mkDate
  rw [Nat.div_eq_of_lt hm, Nat.mod_eq_of_lt hm]
  simp

/-- C7: correctRentDueDate keeps a requested day that fits in the month and
otherwise clamps to the month's last day; in particular a request for day 31
in a 30-day month yields day 30, and a request for day 30 in February yields
day 29 in a leap year of the Gregorian calendar and day 28 otherwise.  The
year is the constructor-shifted year of the input. -/
theorem correctRentDueDate_clamps (y : Int) (m : Nat) (hm : m < 12) :
    (∀ d, d ≤ daysInMonth (yearShift y) m →
      correctRentDueDate y m d = ⟨yearShift y, m, d⟩) ∧
    (∀ d, daysInMonth (yearShift y) m < d →
      correctRentDueDate y m d = ⟨yearShift y, m, daysInMonth (yearShift y) m⟩) ∧
    (daysInMonth (yearShift y) m = 30 →
      correctRentDueDate y m 31 = ⟨yearShift y, m, 30⟩) ∧
    (gregorianLeap (yearShift y) = true →
      correctRentDueDate y 1 30 = ⟨yearShift y, 1, 29⟩) ∧
    (gregorianLeap (yearShift y) = false →
      correctRentDueDate y 1 30 = ⟨yearShift y, 1, 28⟩) := by
  have hdim := getDaysInMonth_eq y m hm
  have hkeep : ∀ d, d ≤ daysInMonth (yearShift y) m →
      correctRentDueDate y m d = ⟨yearShift y, m, d⟩ := by
    intro d hd
    unfold correctRentDueDate
    rw [hdim, if_neg (not_lt.mpr hd), mkDate_eq y m d hm]
  have hclamp : ∀ d, daysInMonth (yearShift y) m < d →
      correctRentDueDate y m d = ⟨yearShift y, m, daysInMonth (yearShift y) m⟩ := by
    intro d hd
    unfold correctRentDueDate
    rw [hdim, if_pos hd]
    exact mkDate_eq y m _ hm
  refine ⟨hkeep, hclamp, ?_, ?_, ?_⟩
  · intro h30
    have := hclamp 31 (by omega)
    rwa [h30] at this
  · intro hleap
    have hfeb : daysInMonth (yearShift y) 1 = 29 := by simp [daysInMonth, hleap]
    have hdim1 := getDaysInMonth_eq y 1 (by omega)
    unfold correctRentDueDate
    rw [hdim1, hfeb, if_pos (by omega : 29 < 30)]
    exact mkDate_eq y 1 _ (by omega)
  · intro hleap
    have hfeb : daysInMonth (yearShift y) 1 = 28 := by simp [daysInMonth, hleap]
    have hdim1 := getDaysInMonth_eq y 1 (by omega)
    unfold correctRentDueDate
    rw [hdim1, hfeb, if_pos (by omega : 28 < 30)]
    exact mkDate_eq y 1 _ (by omega)

/-- Instantiation of correctRentDueDate_clamps: April (month index 3) of
2023 keeps day 15 and clamps day 31 to day 30. -/
theorem correctRentDueDate_clamps_witness :
    correctRentDueDate 2023 3 15 = ⟨2023, 3, 15⟩ ∧
    correctRentDueDate 2023 3 31 = ⟨2023, 3, 30⟩ :=
  ⟨by
    have h := (correctRentDueDate_clamps 2023 3 (by decide)).1 15 (by decide)
    simpa using h,
   by
    have h := (correctRentDueDate_clamps 2023 3 (by decide)).2.2.1 (by decide)
    simpa using h⟩

/-- Every record built by the first-month calculator carries the vacancy
flag derived from the rent change rate. -/
theorem calculateFirstMonthRent_vacancy (due : Nat) (ls : JSDate) (base rate : ℚ) :
    ∀ r ∈ calculateFirstMonthRent due ls base rate, r.vacancy = isVacant rate := by
  intro r hr
  by_cases h1 : due = ls.day
  · simp [calculateFirstMonthRent, h1] at hr
    rw [hr]
  · by_cases h2 : due < ls.day
    · simp [calculateFirstMonthRent, h1, h2] at hr
      rw [hr]
    · simp [calculateFirstMonthRent, h1, h2] at hr
      rcases hr with h | h
      · rw [h]
      · rw [h]

/-- The loop preserves the vacancy flag across all records it appends. -/
theorem rentLoop_vacancy (c : Contract) :
    ∀ (fuel : Nat) (records : List MonthlyRentRecord) (month : Nat)
      (out : List MonthlyRentRecord),
      rentLoop c fuel records month = some out →
      (∀ r ∈ records, r.vacancy = isVacant c.rentChangeRate) →
      ∀ r ∈ out, r.vacancy = isVacant c.rentChangeRate := by
  intro fuel
  induction fuel with
  | zero =>
    intro records month out hout hrec
    cases hl : records.getLast? with
    | none =>
      simp only [rentLoop, hl, Option.none_bind] at hout
      exact Option.noConfusion hout
    | some last =>
      simp only [rentLoop, hl, Option.some_bind] at hout
      split at hout
      · exact absurd hout (by simp)
      · injection hout with h
        subst h
        exact hrec
  | succ f ih =>
    intro records month out hout hrec
    cases hl : records.getLast? with
    | none =>
      simp only [rentLoop, hl, Option.none_bind] at hout
      exact Option.noConfusion hout
    | some last =>
      simp only [rentLoop, hl, Option.some_bind] at hout
      split at hout
      · cases ha : (if c.rentRateChangeFrequency ≠ 0 ∧
            (month : Int) % c.rentRateChangeFrequency = 0 then
          some (roundToTwoDecimalPlaces
            (calculateNewMonthlyRent last.rentAmount c.rentChangeRate))
        else
          (records.get? month).map fun r => roundToTwoDecimalPlaces r.rentAmount) with
        | none => rw [ha, Option.none_bind] at hout; exact absurd hout (by simp)
        | some amt =>
          rw [ha, Option.some_bind] at hout
          refine ih _ _ _ hout ?_
          intro r hr
          rcases List.mem_append.mp hr with h | h
          · exact hrec r h
          · simp at h
            rw [h]
      · injection hout with h
        subst h
        exact hrec

/-- C8: in any successfully computed schedule, every record's vacancy flag
is true when the rent change rate is negative and false when it is
non-negative. -/
theorem vacancy_flag (c : Contract) (recs : List MonthlyRentRecord)
    (h : calculateMonthlyRent c = some recs) (r : MonthlyRentRecord) (hr : r ∈ recs) :
    (c.rentChangeRate < 0 → r.vacancy = true) ∧
    (0 ≤ c.rentChangeRate → r.vacancy = false) := by
  have hvac : r.vacancy = isVacant c.rentChangeRate := by
    cases hl : (calculateFirstMonthRent c.dayOfMonthRentDue c.leaseStartDate
        c.baseMonthlyRent c.rentChangeRate).getLast? with
    | none =>
      simp only [calculateMonthlyRent, hl] at h
      exact Option.noConfusion h
    | some last =>
      simp only [calculateMonthlyRent, hl] at h
      exact rentLoop_vacancy c _ _ _ _ h
        (calculateFirstMonthRent_vacancy _ _ _ _) r hr
  constructor
  · intro hlt
    rw [hvac]
    simp [isVacant, hlt]
  · intro hge
    rw [hvac]
    simp [isVacant]
    exact hge

/-- Instantiation of vacancy_flag at the scenario contract (rate 0.05): the
first record of its schedule is not flagged vacant. -/
theorem vacancy_flag_witness :
    (vacancyWitnessContract.rentChangeRate < 0 →
      (MonthlyRentRecord.mk false 1000 ⟨2024, 0, 15⟩).vacancy = true) ∧
    (0 ≤ vacancyWitnessContract.rentChangeRate →
      (MonthlyRentRecord.mk false 1000 ⟨2024, 0, 15⟩).vacancy = false) :=
  vacancy_flag vacancyWitnessContract
    [⟨false, 1000, ⟨2024, 0, 15⟩⟩, ⟨false, 1050, ⟨2024, 1, 15⟩⟩,
     ⟨false, 1050, ⟨2024, 2, 15⟩⟩]
    (by with_unfolding_all rfl) ⟨false, 1000, ⟨2024, 0, 15⟩⟩ (by simp)

/-- The first-month calculator always returns one or two records. -/
theorem calculateFirstMonthRent_length (due : Nat) (ls : JSDate) (base rate : ℚ) :
    (calculateFirstMonthRent due ls base rate).length = 1 ∨
    (calculateFirstMonthRent due ls base rate).length = 2 := by
  unfold calculateFirstMonthRent
  by_cases h1 : due = ls.day
  · simp [h1]
  · by_cases h2 : due < ls.day <;> simp [h1, h2]

/-- When the window end is on or before the start date (componentwise) and
the start date's month index is at least 1, the month difference is below
that month index. -/
theorem calculateMonthDifference_lt (e s : JSDate) (h : dateLe e s)
    (hm : 1 ≤ s.month) : calculateMonthDifference e s < (s.month : Int) := by
  unfold calculateMonthDifference
  rcases h with h | ⟨hy, hm2⟩
  · have h' : s.year > e.year := h
    rw [if_pos h']
    omega
  · have hne : ¬ s.year > e.year := by omega
    rw [if_neg hne, if_pos hy.symm]
    rcases hm2 with h3 | ⟨h3, _⟩ <;> omega

/-- C4 amended: when the window end is on or before the last first-month
record's due date and that due date does not fall in January (month index at
least 1), the loop guard fails immediately, so the output is exactly the
first-month seed, which has one or two records.  (For a January first due
date the guard 0 <= monthDifference can still hold and an extra record is
appended; see the counterexample.) -/
theorem window_exit_amended (c : Contract) (last : MonthlyRentRecord)
    (hseed : (calculateFirstMonthRent c.dayOfMonthRentDue c.leaseStartDate
        c.baseMonthlyRent c.rentChangeRate).getLast? = some last)
    (hm : 1 ≤ last.rentDueDate.month)
    (hle : dateLe c.windowEndDate last.rentDueDate) :
    calculateMonthlyRent c =
      some (calculateFirstMonthRent c.dayOfMonthRentDue c.leaseStartDate
        c.baseMonthlyRent c.rentChangeRate) ∧
    ((calculateFirstMonthRent c.dayOfMonthRentDue c.leaseStartDate
        c.baseMonthlyRent c.rentChangeRate).length = 1 ∨
      (calculateFirstMonthRent c.dayOfMonthRentDue c.leaseStartDate
        c.baseMonthlyRent c.rentChangeRate).length = 2) := by
  constructor
  · simp only [calculateMonthlyRent, hseed]
    exact rentLoop_exit c (rentFuel c) _ last.rentDueDate.month last hseed
      (calculateMonthDifference_lt _ _ hle hm)
  · exact calculateFirstMonthRent_length _ _ _ _

/-- Instantiation of window_exit_amended: March-start lease, window ending
2024-03-01 before the 2024-03-15 due date, output is exactly the seed. -/
theorem window_exit_amended_witness :
    calculateMonthlyRent marchEarlyEndContract =
      some (calculateFirstMonthRent marchEarlyEndContract.dayOfMonthRentDue
        marchEarlyEndContract.leaseStartDate marchEarlyEndContract.baseMonthlyRent
        marchEarlyEndContract.rentChangeRate) ∧
    ((calculateFirstMonthRent marchEarlyEndContract.dayOfMonthRentDue
        marchEarlyEndContract.leaseStartDate marchEarlyEndContract.baseMonthlyRent
        marchEarlyEndContract.rentChangeRate).length = 1 ∨
      (calculateFirstMonthRent marchEarlyEndContract.dayOfMonthRentDue
        marchEarlyEndContract.leaseStartDate marchEarlyEndContract.baseMonthlyRent
        marchEarlyEndContract.rentChangeRate).length = 2) :=
  window_exit_amended marchEarlyEndContract ⟨false, 1000, ⟨2024, 2, 15⟩⟩
    (by with_unfolding_all rfl) (by decide) (by decide)

/-- C9 counterexample: for a March-start lease (single seeded record, due
month index 2, frequency 12) the first loop iteration takes the
non-escalation branch with counter 2 while only 1 record exists, so the
lookback monthlyRentRecords[2].rentAmount is out of bounds; in JavaScript
this throws, modelled here as the none result. -/
theorem march_start_counterexample :
    (calculateFirstMonthRent marchStartContract.dayOfMonthRentDue
        marchStartContract.leaseStartDate marchStartContract.baseMonthlyRent
        marchStartContract.rentChangeRate).length = 1 ∧
    (calculateFirstMonthRent marchStartContract.dayOfMonthRentDue
        marchStartContract.leaseStartDate marchStartContract.baseMonthlyRent
        marchStartContract.rentChangeRate).getLast? =
      some ⟨false, 1000, ⟨2024, 2, 15⟩⟩ ∧
    1 ≤ marchStartContract.rentRateChangeFrequency ∧
    calculateMonthlyRent marchStartContract = none :=
  ⟨by with_unfolding_all rfl, by with_unfolding_all rfl, by decide,
   by with_unfolding_all rfl⟩

/-- The corrected due date has the constructor-shifted year plus the month
carry, and a month index reduced modulo 12. -/
theorem correctRentDueDate_components (y : Int) (m d : Nat) :
    (correctRentDueDate y m d).year = yearShift y + ((m / 12 : Nat) : Int) ∧
    (correctRentDueDate y m d).month = m % 12 := by
  simp only [correctRentDueDate, mkDate]
  split <;> exact ⟨rfl, rfl⟩

/-- Upper bound on any month counter admitted by the loop guard: when the
moving start date is at or after the lease-start year and has a valid month
index, the month difference to the window end is bounded by the year span
plus one year of months plus the window end's month index. -/
theorem calculateMonthDifference_le (e s : JSDate) (Y : Int) (hY : Y ≤ s.year)
    (hsm : s.month < 12) (m : Nat)
    (h : (m : Int) ≤ calculateMonthDifference e s) :
    (m : Int) ≤ ((e.year - Y).toNat : Int) * 12 + 11 + e.month := by
  have ht : e.year - Y ≤ ((e.year - Y).toNat : Int) := Int.self_le_toNat _
  have ht0 : (0 : Int) ≤ ((e.year - Y).toNat : Int) := Int.natCast_nonneg _
  simp only [calculateMonthDifference] at h
  split at h
  · omega
  · split at h
    · omega
    · split at h <;> omega

/-- The last first-month record is always dated at the corrected due date of
the lease-start month. -/
theorem calculateFirstMonthRent_getLast_due (due : Nat) (ls : JSDate)
    (base rate : ℚ) (r : MonthlyRentRecord)
    (h : (calculateFirstMonthRent due ls base rate).getLast? = some r) :
    r.rentDueDate = correctRentDueDate ls.year ls.month due := by
  by_cases h1 : due = ls.day
  · subst h1
    simp [calculateFirstMonthRent] at h
    rw [← h]
  · by_cases h2 : due < ls.day
    · simp [calculateFirstMonthRent, h1, h2] at h
      rw [← h]
    · simp [calculateFirstMonthRent, h1, h2] at h
      rw [← h]

/-- The fuel bound rentFuel is large enough: starting from any loop state
whose last record is dated with a valid month in or after the lease-start
year and whose counter is a valid index, a loop with enough fuel returns
some list. -/
theorem rentLoop_isSome (c : Contract) :
    ∀ (fuel : Nat) (records : List MonthlyRentRecord) (month : Nat)
      (last : MonthlyRentRecord),
      records.getLast? = some last →
      yearShift c.leaseStartDate.year ≤ last.rentDueDate.year →
      last.rentDueDate.month < 12 →
      month < records.length →
      ((c.windowEndDate.year - yearShift c.leaseStartDate.year).toNat : Int) * 12 +
          11 + c.windowEndDate.month < (month : Int) + fuel →
      (rentLoop c fuel records month).isSome = true := by
  intro fuel
  induction fuel with
  | zero =>
    intro records month last h1 hY hm hidx hfuel
    have hguard : ¬ ((month : Int) ≤
        calculateMonthDifference c.windowEndDate last.rentDueDate) := by
      intro hle
      have := calculateMonthDifference_le c.windowEndDate last.rentDueDate
        (yearShift c.leaseStartDate.year) hY hm month hle
      omega
    simp only [rentLoop, h1, Option.some_bind, if_neg hguard, Option.isSome_some]
  | succ f ih =>
    intro records month last h1 hY hm hidx hfuel
    by_cases hguard : (month : Int) ≤
        calculateMonthDifference c.windowEndDate last.rentDueDate
    · simp only [rentLoop, h1, Option.some_bind, if_pos hguard]
      have hamt : ∃ amt, (if c.rentRateChangeFrequency ≠ 0 ∧
            (month : Int) % c.rentRateChangeFrequency = 0 then
          some (roundToTwoDecimalPlaces
            (calculateNewMonthlyRent last.rentAmount c.rentChangeRate))
        else
          (records.get? month).map fun r => roundToTwoDecimalPlaces r.rentAmount) =
          some amt := by
        split
        · exact ⟨_, rfl⟩
        · exact ⟨_, by rw [List.get?_eq_get hidx]; rfl⟩
      rcases hamt with ⟨amt, hamt⟩
      rw [hamt, Option.some_bind]
      have hcomp := correctRentDueDate_components c.leaseStartDate.year
        (last.rentDueDate.month + 1) c.dayOfMonthRentDue
      apply ih _ (month + 1)
        ⟨isVacant c.rentChangeRate, amt,
          correctRentDueDate c.leaseStartDate.year (last.rentDueDate.month + 1)
            c.dayOfMonthRentDue⟩
      · exact List.getLast?_concat _
      · rw [hcomp.1]
        have := Int.natCast_nonneg ((last.rentDueDate.month + 1) / 12)
        omega
      · rw [hcomp.2]
        exact Nat.mod_lt _ (by norm_num)
      · simp
        omega
      · push_cast
        push_cast at hfuel
        omega
    · simp only [rentLoop, h1, Option.some_bind, if_neg hguard, Option.isSome_some]

/-- C9 amended: the lookback read is in bounds throughout the loop exactly
when the seeded arrangement starts that way: for every contract with
frequency at least 1 whose last first-month record's due month index is
less than the number of seeded records (in particular a January first due
date, index 0, with a 1- or 2-record seed), the schedule computation
completes without any out-of-bounds read. -/
theorem lookback_in_bounds_amended (c : Contract) (last : MonthlyRentRecord)
    (hfreq : 1 ≤ c.rentRateChangeFrequency)
    (hseed : (calculateFirstMonthRent c.dayOfMonthRentDue c.leaseStartDate
        c.baseMonthlyRent c.rentChangeRate).getLast? = some last)
    (hidx : last.rentDueDate.month < (calculateFirstMonthRent c.dayOfMonthRentDue
        c.leaseStartDate c.baseMonthlyRent c.rentChangeRate).length) :
    (calculateMonthlyRent c).isSome = true := by
  have hdue := calculateFirstMonthRent_getLast_due c.dayOfMonthRentDue
    c.leaseStartDate c.baseMonthlyRent c.rentChangeRate last hseed
  have hcomp := correctRentDueDate_components c.leaseStartDate.year
    c.leaseStartDate.month c.dayOfMonthRentDue
  simp only [calculateMonthlyRent, hseed]
  apply rentLoop_isSome c (rentFuel c) _ _ last hseed
  · rw [hdue, hcomp.1]
    have := Int.natCast_nonneg (c.leaseStartDate.month / 12)
    omega
  · rw [hdue, hcomp.2]
    exact Nat.mod_lt _ (by norm_num)
  · exact hidx
  · unfold rentFuel
    push_cast
    omega

/-- Instantiation of lookback_in_bounds_amended at a January-start lease
with frequency 12: the computation completes. -/
theorem lookback_in_bounds_witness :
    (calculateMonthlyRent janStartContract).isSome = true :=
  lookback_in_bounds_amended janStartContract ⟨false, 1000, ⟨2024, 0, 15⟩⟩
    (by decide) (by with_unfolding_all rfl) (by with_unfolding_all decide)
